import Mathlib

/-!
Verification development for the block-classification and instanced-mesh
batching pipeline of the voxel-world viewer (source files
`materialFactory.js`, `blockFactory.js`, `slabFactory.js`, `stairFactory.js`,
`main.js`).  The JavaScript source is shallowly embedded: each definition
below mirrors one source function (the doc comment names it).  Numeric
conventions used throughout:

* world coordinates are integers (`Int`), geometric sizes and offsets are
  rationals (`ℚ`), exact for every constant appearing in the source;
* rotation angles are stored as the rational coefficient of `π`
  (the source always writes angles as `Math.PI * q`), so `Math.PI / 2`
  becomes `1/2`, `Math.PI` becomes `1`;
* JavaScript values that may be `undefined` become `Option _`; a JS value
  that may be either a boolean or a string (the `connections` map values)
  becomes the sum type `JsVal`;
* exceptions become `Except String _`.
-/

/-- Model of JavaScript `String.prototype.startsWith` on character lists:
`jsStartsWithL needle hay` is true when `needle` is an initial segment of
`hay`. -/
def jsStartsWithL : List Char → List Char → Bool
  | [], _ => true
  | _ :: _, [] => false
  | a :: as, b :: bs => a = b && jsStartsWithL as bs

/-- Helper for `jsIncludes`: does `needle` occur as a contiguous segment of
the second list? -/
def jsContainsL (needle : List Char) : List Char → Bool
  | [] => jsStartsWithL needle []
  | b :: bs => jsStartsWithL needle (b :: bs) || jsContainsL needle bs

/-- Model of JavaScript `String.prototype.includes` (substring test), used
pervasively by the source for type-name dispatch. -/
def jsIncludes (s sub : String) : Bool := jsContainsL sub.data s.data

/-- Model of JavaScript `String.prototype.endsWith`. -/
def jsEndsWith (s sub : String) : Bool :=
  jsStartsWithL sub.data.reverse s.data.reverse

/-- Model of JavaScript `String.prototype.startsWith`. -/
def jsStartsWith (s sub : String) : Bool := jsStartsWithL sub.data s.data

/-- Model of JavaScript `split('_')` (the only separator the source uses is
the single character `'_'`): splits a string at every underscore. -/
def jsSplitAux (sep : Char) : List Char → List Char → List String
  | [], acc => [String.mk acc.reverse]
  | c :: cs, acc =>
    if c = sep then String.mk acc.reverse :: jsSplitAux sep cs []
    else jsSplitAux sep cs (c :: acc)

/-- Model of JavaScript `s.split(sep)` for a one-character separator. -/
def jsSplit (s : String) (sep : Char) : List String := jsSplitAux sep s.data []

/-- Model of JavaScript `Array.prototype.join(sep)`. -/
def jsJoin (sep : String) : List String → String
  | [] => ""
  | [x] => x
  | x :: y :: xs => x ++ sep ++ jsJoin sep (y :: xs)

/-- Model of the JavaScript `||` default idiom `s || d` for an optional
string: `undefined` and the empty string (both falsy) fall back to `d`. -/
def jsOr (o : Option String) (d : String) : String :=
  match o with
  | some s => if s = "" then d else s
  | none => d

/-- A JavaScript value that is either a boolean or a string; used for the
values of a block's `connections` map, where the source distinguishes the
string `'true'` from the boolean `true` by strict (`===`) equality. -/
inductive JsVal where
  | bool (b : Bool)
  | str (s : String)
  deriving DecidableEq, Repr

/-- Trapdoor state record (`{open, half, facing}`) carried on a block; the
source reads `open` with both `=== true` and `=== 'true'`, so it is stored
as an optional `JsVal`.  The JS field `open` is named `tdOpen` here because
`open` is a Lean keyword. -/
structure TrapdoorState where
  tdOpen : Option JsVal := none
  half : Option String := none
  facing : Option String := none
  deriving DecidableEq, Repr

/-- A block record of the world snapshot, with the fields the pipeline
reads.  Optional fields model JS `undefined`; `extraIsUpper` models
`extra_data?.isUpperSlab`, `stairDataFacing`/`Half`/`Shape` model the
incoming `stairData` metadata, and `facing`/`half`/`shape` the fields the
normalization step writes. -/
structure Block where
  type : String
  x : Int
  y : Int
  z : Int
  data : Option Int := none
  isUpperSlab : Option Bool := none
  extraIsUpper : Option Bool := none
  stairDataFacing : Option String := none
  stairDataHalf : Option String := none
  stairDataShape : Option String := none
  facing : Option String := none
  half : Option String := none
  shape : Option String := none
  trapdoorState : Option TrapdoorState := none
  color : Option String := none
  connections : Option (List (String × JsVal)) := none
  hanging : Option Bool := none
  isDoublePlantBottom : Bool := false
  isDoublePlantTop : Bool := false
  originalData : Option Int := none
  originalType : Option String := none
  deriving DecidableEq, Repr

/-- Position key `x,y,z` of a block, as used by `processBlocks`' position
map. -/
def posOf (b : Block) : Int × Int × Int := (b.x, b.y, b.z)

/-- Position one unit above a block (the synthesized double-plant top). -/
def topPosOf (b : Block) : Int × Int × Int := (b.x, b.y + 1, b.z)

/-! ### WorldLoader.processBlocks (materialFactory.js, snapshot loader part)

The loader walks the raw block list once, skipping any block whose position
was set to `null` in its position map (`blockMap.get(key) === null`),
and normalizes double plants, slabs, stairs, trapdoors and colored blocks.
`blockStep` is the body of the loop for one (non-skipped) block: the list
of records it pushes.  `blockConsumes` is the set of position keys the
block nulls out in the map. -/

/-- Plant type extracted from a `double_plant*` type name:
`parts = type.split('_'); parts.length > 2 ? parts[2] : 'grass'`. -/
def doublePlantType (b : Block) : String :=
  let parts := jsSplit b.type '_'
  if parts.length > 2 then parts.getD 2 "grass" else "grass"

/-- The bottom part pushed for a double plant: the original record with type
`double_plant_{plantType}_bottom` and the bottom marker set. -/
def doublePlantBottom (b : Block) : Block :=
  { b with type := "double_plant_" ++ doublePlantType b ++ "_bottom",
           isDoublePlantBottom := true }

/-- The synthesized top part pushed for a double plant: a fresh record (not
a spread of the original) holding only type, position `(x, y+1, z)` and the
top marker. -/
def doublePlantTop (b : Block) : Block :=
  { type := "double_plant_" ++ doublePlantType b ++ "_top",
    x := b.x, y := b.y + 1, z := b.z,
    isDoublePlantTop := true }

/-- `block.isUpperSlab === true || block.extra_data?.isUpperSlab === true`. -/
def slabIsUpper (b : Block) : Bool :=
  decide (b.isUpperSlab = some true) || decide (b.extraIsUpper = some true)

/-- The 8-entry `switch (materialBits)` table of the generic-slab branch. -/
def slabTypeTable (bits : Int) : String :=
  if bits = 0 then "stone_slab"
  else if bits = 1 then "sandstone_slab"
  else if bits = 2 then "oak_slab"
  else if bits = 3 then "cobblestone_slab"
  else if bits = 4 then "brick_slab"
  else if bits = 5 then "stone_brick_slab"
  else if bits = 6 then "nether_brick_slab"
  else if bits = 7 then "quartz_slab"
  else "stone_slab"

/-- Resolution of a generic `'slab'` record's concrete type: default
`'stone_slab'`; when `data` is present, `materialBits = data & 0x7` (in
the embedding, `% 8` on `Int`, which agrees with JS two's-complement
bitwise and for the low three bits) indexes the table. -/
def slabResolvedType (data : Option Int) : String :=
  match data with
  | none => "stone_slab"
  | some d => slabTypeTable (d % 8)

/-- Record pushed for a generic `'slab'`:
`{...block, type: slabType, isUpperSlab, originalData: block.data,
originalType: 'slab'}`. -/
def processGenericSlab (b : Block) : Block :=
  { b with type := slabResolvedType b.data,
           isUpperSlab := some (slabIsUpper b),
           originalData := b.data,
           originalType := some "slab" }

/-- Record pushed for a concrete `*_slab`:
`{...block, isUpperSlab, originalData: block.data}`. -/
def processSpecificSlab (b : Block) : Block :=
  { b with isUpperSlab := some (slabIsUpper b), originalData := b.data }

/-- Default trapdoor state used when a trapdoor record carries none:
`{open: false, half: 'bottom', facing: 'north'}`. -/
def trapdoorDefaultState : TrapdoorState :=
  { tdOpen := some (JsVal.bool false), half := some "bottom",
    facing := some "north" }

/-- Records pushed by one iteration of the `processBlocks` loop for a block
that was not skipped, following the source's branch order: double plants,
slabs, stairs, trapdoors, colored blocks, and the pass-through default. -/
def blockStep (b : Block) : List Block :=
  if jsIncludes b.type "double_plant" then
    [doublePlantBottom b, doublePlantTop b]
  else if jsIncludes b.type "_slab" || b.type = "slab" then
    if b.type = "slab" then [processGenericSlab b]
    else [processSpecificSlab b]
  else if jsIncludes b.type "_stairs" || b.type = "stairs" then
    if b.type = "stairs" then
      [{ b with type := "spruce_stairs",
                facing := b.stairDataFacing, half := b.stairDataHalf,
                shape := b.stairDataShape, originalType := some "stairs" }]
    else
      [{ b with facing := b.stairDataFacing, half := b.stairDataHalf,
                shape := b.stairDataShape }]
  else if jsIncludes b.type "_trapdoor" || b.type = "trapdoor" then
    match b.trapdoorState with
    | some st => [{ b with trapdoorState := some st }]
    | none => [{ b with trapdoorState := some trapdoorDefaultState }]
  else if jsIncludes b.type "concrete" || jsIncludes b.type "wool" then
    [{ b with color := some (jsOr b.color "white") }]
  else
    [b]

/-- Position keys a block nulls out in the loader's position map: a double
plant marks the position one above itself as processed. -/
def blockConsumes (b : Block) : List (Int × Int × Int) :=
  if jsIncludes b.type "double_plant" then [topPosOf b] else []

/-- The `processBlocks` loop with the set of nulled position keys as
explicit state: a block whose position key was nulled is skipped, all other
blocks contribute `blockStep` and extend the nulled set. -/
def processBlocksGo : List Block → List (Int × Int × Int) → List Block
  | [], _ => []
  | b :: rest, consumed =>
    if posOf b ∈ consumed then processBlocksGo rest consumed
    else blockStep b ++ processBlocksGo rest (blockConsumes b ++ consumed)

/-- `WorldLoader.processBlocks`: normalize the raw snapshot block list
(initially no position is nulled). -/
def processBlocks (blocks : List Block) : List Block := processBlocksGo blocks []

/-! ### String ordering for JavaScript `Array.prototype.sort()`

The source sorts connection-direction names with the default comparator,
which compares strings by code units.  `charListLe` is that lexicographic
order on character lists. -/

/-- Lexicographic comparison of character lists (JS default string
comparison; all strings compared by the source are ASCII). -/
def charListLe : List Char → List Char → Bool
  | [], _ => true
  | _ :: _, [] => false
  | a :: as, b :: bs => if a = b then charListLe as bs else decide (a < b)

/-- JS default string comparison, as a Bool. -/
def jsStrLe (a b : String) : Bool := charListLe a.data b.data

/-- JS default string comparison, as a relation for `List.insertionSort`. -/
def strLeRel (a b : String) : Prop := jsStrLe a b = true

instance : DecidableRel strLeRel := fun _ _ => instDecidableEqBool _ _

theorem charListLe_total : ∀ as bs : List Char,
    charListLe as bs = true ∨ charListLe bs as = true := by
  intro as
  induction as with
  | nil => intro bs; left; rfl
  | cons a as ih =>
    intro bs
    cases bs with
    | nil => right; rfl
    | cons b bs =>
      by_cases hab : a = b
      · subst hab
        simpa [charListLe] using ih bs
      · rcases lt_or_gt_of_ne hab with h | h
        · left; simp [charListLe, hab, h]
        · right; simp [charListLe, Ne.symm hab, h]

theorem charListLe_trans : ∀ as bs cs : List Char,
    charListLe as bs = true → charListLe bs cs = true →
    charListLe as cs = true := by
  intro as
  induction as with
  | nil => intro bs cs _ _; rfl
  | cons a as ih =>
    intro bs cs h1 h2
    cases bs with
    | nil => simp [charListLe] at h1
    | cons b bs =>
      cases cs with
      | nil => simp [charListLe] at h2
      | cons c cs =>
        by_cases hab : a = b <;> by_cases hbc : b = c
        · subst hab; subst hbc
          simp only [charListLe, if_pos rfl] at h1 h2 ⊢
          exact ih bs cs h1 h2
        · subst hab
          simp only [charListLe, if_pos rfl, if_neg hbc] at h2 ⊢
          exact h2
        · subst hbc
          simp only [charListLe, if_pos rfl, if_neg hab] at h1 ⊢
          exact h1
        · simp only [charListLe, if_neg hab, decide_eq_true_eq] at h1
          simp only [charListLe, if_neg hbc, decide_eq_true_eq] at h2
          have hac : a < c := lt_trans h1 h2
          simp [charListLe, ne_of_lt hac, hac]

theorem charListLe_antisymm : ∀ as bs : List Char,
    charListLe as bs = true → charListLe bs as = true → as = bs := by
  intro as
  induction as with
  | nil =>
    intro bs _ h2
    cases bs with
    | nil => rfl
    | cons b bs => simp [charListLe] at h2
  | cons a as ih =>
    intro bs h1 h2
    cases bs with
    | nil => simp [charListLe] at h1
    | cons b bs =>
      by_cases hab : a = b
      · subst hab
        simp only [charListLe, if_pos rfl] at h1 h2
        rw [ih bs h1 h2]
      · simp only [charListLe, if_neg hab, decide_eq_true_eq] at h1
        simp only [charListLe, if_neg (Ne.symm hab), decide_eq_true_eq] at h2
        exact absurd h2 (lt_asymm h1)

instance : IsTotal String strLeRel :=
  ⟨fun a b => charListLe_total a.data b.data⟩

instance : IsTrans String strLeRel :=
  ⟨fun a b c => charListLe_trans a.data b.data c.data⟩

instance : IsAntisymm String strLeRel :=
  ⟨fun a b h1 h2 => String.ext (charListLe_antisymm a.data b.data h1 h2)⟩

/-! ### Grouping keys (main.js first pass, and TextureLoader.loadBlock) -/

/-- Directions whose connection value is strictly (`===`) the string
`'true'`:
`Object.entries(connections).filter(([_, v]) => v === 'true').map(([d, _]) => d)`. -/
def connectionsTrueDirs (conns : List (String × JsVal)) : List String :=
  (conns.filter (fun p => decide (p.2 = JsVal.str "true"))).map Prod.fst

/-- A wall/fence record's connection key: the connected directions, sorted
with the default string comparator and joined with `'_'`. -/
def connectionsKey (conns : List (String × JsVal)) : String :=
  jsJoin "_" (List.insertionSort strLeRel (connectionsTrueDirs conns))

/-- The `_connections_*` fragment appended to the main grouping key when a
block has a `connections` map (`connectionsKey || 'none'`). -/
def connectionsSuffix (connsOpt : Option (List (String × JsVal))) : String :=
  match connsOpt with
  | some conns =>
    "_connections_" ++
      (if connectionsKey conns = "" then "none" else connectionsKey conns)
  | none => ""

/-- The `_hanging`/`_standing` fragment appended when `hanging` is defined. -/
def hangingSuffix (h : Option Bool) : String :=
  match h with
  | some hb => if hb then "_hanging" else "_standing"
  | none => ""

/-- The grouping key computed by the first pass of `init` in main.js: slabs
(upper/lower split), colored blocks, stairs (facing and half), trapdoors
(facing, open, half), and the general case with connection and hanging
fragments. -/
def instanceGroupKey (b : Block) : String :=
  if b.isUpperSlab.isSome || b.extraIsUpper.isSome then
    b.type ++ "_slab_" ++
      (if ((b.isUpperSlab.orElse fun _ => b.extraIsUpper).getD false)
       then "upper" else "lower")
  else if jsIncludes b.type "concrete" || jsIncludes b.type "wool" then
    b.type
  else if jsIncludes b.type "_stairs" || b.type = "stairs" then
    b.type ++ "_facing_" ++ jsOr b.facing "east" ++ "_half_" ++
      jsOr b.half "bottom"
  else if jsIncludes b.type "_trapdoor" || b.type = "trapdoor" then
    b.type ++ "_" ++ jsOr (b.trapdoorState.getD {}).facing "north" ++ "_" ++
      (if decide ((b.trapdoorState.getD {}).tdOpen = some (JsVal.bool true)) ||
          decide ((b.trapdoorState.getD {}).tdOpen = some (JsVal.str "true"))
       then "open" else "closed") ++ "_" ++
      (if (b.trapdoorState.getD {}).half = some "top" then "top" else "bottom")
  else
    b.type ++ connectionsSuffix b.connections ++ hangingSuffix b.hanging

/-- The wall/fence template cache key of `TextureLoader.loadBlock`:
`` `${blockType}_${connectionsKey || 'no_connections'}` ``. -/
def wallFenceCacheKey (blockType : String) (conns : List (String × JsVal)) :
    String :=
  blockType ++ "_" ++
    (if connectionsKey conns = "" then "no_connections" else connectionsKey conns)

/-! ### Geometry models

Axis-aligned box geometries carry their exact sizes, the vertical offset
applied by `geometry.translate(0, t, 0)`, the segment counts, and (for
slabs) the linear map `v ↦ sideVMul * v + sideVAdd` the slab builder
applies to the side faces' texture `v` coordinates. -/

structure BoxGeom where
  sizeX : ℚ
  sizeY : ℚ
  sizeZ : ℚ
  centerY : ℚ := 0
  segX : ℕ := 1
  segY : ℕ := 1
  segZ : ℕ := 1
  sideVMul : ℚ := 1
  sideVAdd : ℚ := 0
  deriving DecidableEq, Repr

/-- `getBlockGeometry` (blockFactory.js): the cached unit cube
`BoxGeometry(1, 1, 1, 2, 2, 2)`. -/
def getBlockGeometry : BoxGeom :=
  { sizeX := 1, sizeY := 1, sizeZ := 1, segX := 2, segY := 2, segZ := 2 }

/-- `getSlabGeometry` (slabFactory.js): `BoxGeometry(1, 0.5, 1)` whose side
faces sample the top half (`v * 0.5`, upper slab) or bottom half
(`v * 0.5 + 0.5`, lower slab) of the texture, translated by `+0.25`
(upper) or `-0.25` (lower) along the vertical axis. -/
def getSlabGeometry (isUpperSlab : Bool) : BoxGeom :=
  { sizeX := 1, sizeY := 1/2, sizeZ := 1,
    centerY := if isUpperSlab then 1/4 else -(1/4),
    sideVMul := 1/2,
    sideVAdd := if isUpperSlab then 0 else 1/2 }

/-! ### Stair factory (stairFactory.js) and the stair instance matrix
(main.js) -/

/-- Cache key of `getStairGeometry`: `` `stair_${facing}` ``. -/
def stairGeometryCacheKey (facing : String) : String := "stair_" ++ facing

set_option linter.unusedVariables false in
/-- Vertex positions built by `getStairGeometry(facing)`.  In the source
the `facing` parameter feeds only the cache key: the vertex array is the
same literal for every facing (lower full half-block, 6 quads, plus upper
quarter step, 5 quads; 44 vertices). -/
def getStairGeometryVerts (facing : String) : List (ℚ × ℚ × ℚ) :=
  [(-(1/2), -(1/2), -(1/2)), (1/2, -(1/2), -(1/2)),
   (1/2, 0, -(1/2)), (-(1/2), 0, -(1/2)),
   (-(1/2), -(1/2), 1/2), (1/2, -(1/2), 1/2),
   (1/2, 0, 1/2), (-(1/2), 0, 1/2),
   (-(1/2), -(1/2), -(1/2)), (-(1/2), 0, -(1/2)),
   (-(1/2), 0, 1/2), (-(1/2), -(1/2), 1/2),
   (1/2, -(1/2), -(1/2)), (1/2, 0, -(1/2)),
   (1/2, 0, 1/2), (1/2, -(1/2), 1/2),
   (-(1/2), 0, -(1/2)), (1/2, 0, -(1/2)),
   (1/2, 0, 1/2), (-(1/2), 0, 1/2),
   (-(1/2), -(1/2), -(1/2)), (1/2, -(1/2), -(1/2)),
   (1/2, -(1/2), 1/2), (-(1/2), -(1/2), 1/2),
   (-(1/2), 0, -(1/2)), (0, 0, -(1/2)),
   (0, 1/2, -(1/2)), (-(1/2), 1/2, -(1/2)),
   (-(1/2), 0, 1/2), (0, 0, 1/2),
   (0, 1/2, 1/2), (-(1/2), 1/2, 1/2),
   (-(1/2), 0, -(1/2)), (-(1/2), 1/2, -(1/2)),
   (-(1/2), 1/2, 1/2), (-(1/2), 0, 1/2),
   (0, 0, -(1/2)), (0, 1/2, -(1/2)),
   (0, 1/2, 1/2), (0, 0, 1/2),
   (-(1/2), 1/2, -(1/2)), (0, 1/2, -(1/2)),
   (0, 1/2, 1/2), (-(1/2), 1/2, 1/2)]

/-- The `switch (facing)` yaw applied to the stair template mesh
(`mesh.rotation.y`), as a coefficient of `π`; a facing outside the four
cases leaves the rotation at `0`. -/
def stairFacingYaw (facing : String) : ℚ :=
  if facing = "north" then 1
  else if facing = "south" then 0
  else if facing = "west" then 3/2
  else if facing = "east" then 1/2
  else 0

/-- The stair template mesh built by `createStairBlock`: the geometry it
references (always the `'east'` cache entry, per
`getStairGeometry('east')`) and the rotations set on the mesh. -/
structure StairMesh where
  name : String
  geometryKey : String
  vertices : List (ℚ × ℚ × ℚ)
  rotY : ℚ
  rotX : ℚ
  deriving DecidableEq, Repr

set_option linter.unusedVariables false in
/-- `createStairBlock(blockType, options)` (stairFactory.js):
`facing = options.facing || 'east'`, `half = options.half || 'bottom'`,
geometry `getStairGeometry('east')`, yaw per facing, and a `π` X-rotation
for top-half stairs.  The `shape` option is read by the source but unused
(straight stairs only, per its TODO). -/
def createStairBlock (blockType : String)
    (facingOpt halfOpt shapeOpt : Option String) : StairMesh :=
  { name := blockType
    geometryKey := stairGeometryCacheKey "east"
    vertices := getStairGeometryVerts "east"
    rotY := stairFacingYaw (jsOr facingOpt "east")
    rotX := if jsOr halfOpt "bottom" = "top" then 1 else 0 }

/-- The rotation part of the per-instance matrix the batching loop builds
for stairs (main.js): a base yaw from the same facing switch, a `π`
X-rotation for top-half stairs, and a final extra yaw of `-π/2` (top) or
`π/2` (bottom). -/
structure StairInstanceRot where
  baseYaw : ℚ
  flipTopX : Bool
  extraYaw : ℚ
  deriving DecidableEq, Repr

/-- The stair instance-matrix rotation for one facing/half combination. -/
def stairInstanceRotation (facing half : String) : StairInstanceRot :=
  { baseYaw := stairFacingYaw facing
    flipTopX := decide (half = "top")
    extraYaw := if half = "top" then -(1/2) else 1/2 }

/-! ### Wall and fence builders (blockFactory.js) -/

/-- One primitive box of a wall/fence composite template: its
`BoxGeometry` sizes and its local position. -/
structure WallPart where
  sizeX : ℚ
  sizeY : ℚ
  sizeZ : ℚ
  posX : ℚ
  posY : ℚ
  posZ : ℚ
  deriving DecidableEq, Repr

/-- The `directions` array shared by `createWallBlock` and
`createFenceBlock`: name and x/z arm offsets. -/
def wallDirections : List (String × ℚ × ℚ) :=
  [("north", 0, -(3/8)), ("east", 3/8, 0), ("south", 0, 3/8),
   ("west", -(3/8), 0)]

/-- JS object property lookup `connections[dir]` on the connections map. -/
def jsGet (conns : List (String × JsVal)) (k : String) : Option JsVal :=
  (conns.find? (fun p => decide (p.1 = k))).map Prod.snd

/-- The central wall post: `BoxGeometry(0.5, 1, 0.5)` at the origin. -/
def wallPost : WallPart :=
  { sizeX := 1/2, sizeY := 1, sizeZ := 1/2, posX := 0, posY := 0, posZ := 0 }

/-- A wall connection arm for one direction: `0.5`/`0.3` footprint,
height `0.6`, positioned at `(dir.x, 0.05, dir.z)`. -/
def wallArm (d : String × ℚ × ℚ) : WallPart :=
  { sizeX := if d.1 = "east" ∨ d.1 = "west" then 1/2 else 3/10,
    sizeY := 3/5,
    sizeZ := if d.1 = "north" ∨ d.1 = "south" then 1/2 else 3/10,
    posX := d.2.1, posY := 1/20, posZ := d.2.2 }

/-- `createWallBlock` composite: the post plus one arm for each direction
whose connection value is strictly (`===`) the string `'true'`. -/
def createWallBlock (conns : List (String × JsVal)) : List WallPart :=
  wallPost ::
    (wallDirections.filter
      (fun d => decide (jsGet conns d.1 = some (JsVal.str "true")))).map wallArm

/-- The central fence post: `BoxGeometry(0.25, 1, 0.25)` at the origin. -/
def fencePost : WallPart :=
  { sizeX := 1/4, sizeY := 1, sizeZ := 1/4, posX := 0, posY := 0, posZ := 0 }

/-- A fence upper rail for one direction: `0.5`/`0.125` footprint, height
`0.125`, at `(dir.x, 0.25, dir.z)`. -/
def fenceUpperRail (d : String × ℚ × ℚ) : WallPart :=
  { sizeX := if d.1 = "east" ∨ d.1 = "west" then 1/2 else 1/8,
    sizeY := 1/8,
    sizeZ := if d.1 = "north" ∨ d.1 = "south" then 1/2 else 1/8,
    posX := d.2.1, posY := 1/4, posZ := d.2.2 }

/-- A fence lower rail: same box as the upper rail at `(dir.x, -0.125,
dir.z)`. -/
def fenceLowerRail (d : String × ℚ × ℚ) : WallPart :=
  { sizeX := if d.1 = "east" ∨ d.1 = "west" then 1/2 else 1/8,
    sizeY := 1/8,
    sizeZ := if d.1 = "north" ∨ d.1 = "south" then 1/2 else 1/8,
    posX := d.2.1, posY := -(1/8), posZ := d.2.2 }

/-- `createFenceBlock` composite: the post plus an upper and a lower rail
for each direction whose connection value is strictly the string
`'true'`. -/
def createFenceBlock (conns : List (String × JsVal)) : List WallPart :=
  fencePost ::
    ((wallDirections.filter
        (fun d => decide (jsGet conns d.1 = some (JsVal.str "true")))).map
      (fun d => [fenceUpperRail d, fenceLowerRail d])).flatten

/-! ### Plant builders (blockFactory.js)

`createPlantBlock` and `createDoublePlantBlock` build two crossed planes
(yaws `π/4` and `-π/4`) inside a group; the group yaw is drawn from
`Math.random() * Math.PI * 2`, except for crops/wheat (plants) and `_top`
parts (double plants).  The `Math.random()` draw is an explicit parameter
`rand ∈ [0, 1)` of the embedding. -/

structure PlantTemplate where
  name : String
  plane1RotY : ℚ
  plane2RotY : ℚ
  groupRotY : ℚ
  groupPosY : ℚ
  deriving DecidableEq, Repr

/-- `createPlantBlock(blockType, properties)` with the `Math.random()`
draw made explicit. -/
def createPlantBlock (blockType : String) (rand : ℚ) : PlantTemplate :=
  { name := blockType
    plane1RotY := 1/4
    plane2RotY := -(1/4)
    groupRotY :=
      if !(jsIncludes blockType "crop") && !(jsIncludes blockType "wheat")
      then rand * 2 else 0
    groupPosY := -(1/2) }

/-- `createDoublePlantBlock(blockType, properties)` with the
`Math.random()` draw made explicit; only `_top` parts skip the random
yaw. -/
def createDoublePlantBlock (blockType : String) (rand : ℚ) : PlantTemplate :=
  { name := blockType
    plane1RotY := 1/4
    plane2RotY := -(1/4)
    groupRotY := if !(jsIncludes blockType "_top") then rand * 2 else 0
    groupPosY := -(1/2) }

/-! ### createBlock dispatch (blockFactory.js) -/

/-- `isChainBlock`. -/
def isChainBlock (t : String) : Bool :=
  decide (t = "chain") || jsEndsWith t "_chain"

/-- `isDoorBlock`. -/
def isDoorBlock (t : String) : Bool :=
  decide (t = "door") || (jsEndsWith t "_door" && !(jsIncludes t "trapdoor"))

/-- `isGrindstoneBlock` (grindstoneFactory.js). -/
def isGrindstoneBlock (t : String) : Bool := decide (t = "grindstone")

/-- `isSlabBlock` (slabFactory.js). -/
def isSlabBlock (t : String) : Bool :=
  jsIncludes t "_slab" || decide (t = "slab")

/-- `isStairBlock` (stairFactory.js). -/
def isStairBlock (t : String) : Bool :=
  jsIncludes t "_stairs" || decide (t = "stairs")

/-- `isWallBlock`. -/
def isWallBlock (t : String) : Bool :=
  jsIncludes t "_wall" || decide (t = "wall")

/-- `isFenceBlock`. -/
def isFenceBlock (t : String) : Bool :=
  jsIncludes t "_fence" && !(jsIncludes t "gate")

/-- `isTrapdoorBlock`. -/
def isTrapdoorBlock (t : String) : Bool :=
  jsIncludes t "_trapdoor" || decide (t = "trapdoor")

/-- `isLanternBlock`. -/
def isLanternBlock (t : String) : Bool :=
  jsIncludes t "lantern" && decide (t ≠ "jack_o_lantern")

/-- `isDoublePlant`. -/
def isDoublePlant (t : String) : Bool :=
  jsIncludes t "double_plant" || jsIncludes t "_top" || jsIncludes t "_bottom"

/-- The plant-name pattern list of `isPlantBlock`. -/
def plantTypePatterns : List String :=
  ["plant", "flower", "sapling", "mushroom", "wheat", "berry", "fern",
   "dead_bush", "seagrass", "kelp", "bamboo", "vine", "lily",
   "double_plant", "rose", "dandelion", "tulip", "allium", "orchid",
   "poppy", "cornflower", "wither_rose"]

/-- The explicit exclusion list of `isPlantBlock`. -/
def excludedPlantBlocks : List String :=
  ["grass_block", "grass_path", "dirt_path", "mycelium", "podzol",
   "farmland", "farmland_moist", "mushroom_stem", "brown_mushroom_block"]

/-- `isPlantBlock`: exclusion list first, then the special handling of
`grass`, then the pattern list. -/
def isPlantBlock (t : String) : Bool :=
  if excludedPlantBlocks.contains t then false
  else if jsIncludes t "grass" then
    decide (t = "grass") || decide (t = "tallgrass") ||
      (jsStartsWith t "grass_" && !(jsIncludes t "path"))
  else plantTypePatterns.any (fun p => jsIncludes t p)

/-- The rendering strategy `createBlock` dispatches a type to. -/
inductive RenderDispatch where
  | chain | torch | door | grindstone | colored | slab | stair | wall
  | fence | trapdoor | lantern | doublePlant | plant | cube
  deriving DecidableEq, Repr

/-- The branch order of `createBlock` (blockFactory.js): which category
builder a block type reaches. -/
def createBlockDispatch (t : String) : RenderDispatch :=
  if isChainBlock t then RenderDispatch.chain
  else if jsIncludes t "torch" then RenderDispatch.torch
  else if isDoorBlock t then RenderDispatch.door
  else if isGrindstoneBlock t then RenderDispatch.grindstone
  else if jsIncludes t "concrete" || jsIncludes t "wool" then
    RenderDispatch.colored
  else if isSlabBlock t then RenderDispatch.slab
  else if isStairBlock t then RenderDispatch.stair
  else if isWallBlock t then RenderDispatch.wall
  else if isFenceBlock t then RenderDispatch.fence
  else if isTrapdoorBlock t then RenderDispatch.trapdoor
  else if isLanternBlock t then RenderDispatch.lantern
  else if isDoublePlant t then RenderDispatch.doublePlant
  else if isPlantBlock t then RenderDispatch.plant
  else RenderDispatch.cube

/-! ### Instanced-mesh draw-order sort (main.js) -/

/-- The flags the batching loop attaches to each emitted instanced mesh:
`isTransparent` (some material has `transparent`), `isLeaf` (key contains
`'leaves'`), `isSlab` (key contains `'_slab_'`). -/
structure SceneNode where
  isTransparent : Bool
  isLeaf : Bool
  isSlab : Bool
  deriving DecidableEq, Repr

/-- The comparator passed to `instancedMeshes.sort`: transparent after
opaque, then leaves after non-leaves, then slabs after non-slabs. -/
def instancedMeshCompare (a b : SceneNode) : Int :=
  if a.isTransparent && !b.isTransparent then 1
  else if !a.isTransparent && b.isTransparent then -1
  else if a.isLeaf && !b.isLeaf then 1
  else if !a.isLeaf && b.isLeaf then -1
  else if a.isSlab && !b.isSlab then 1
  else if !a.isSlab && b.isSlab then -1
  else 0

/-- The total preorder induced by the comparator (`compare ≤ 0`), the order
a correct comparison sort establishes pairwise. -/
def meshLERel (a b : SceneNode) : Prop := instancedMeshCompare a b ≤ 0

instance : DecidableRel meshLERel := fun a b =>
  inferInstanceAs (Decidable (instancedMeshCompare a b ≤ 0))

instance : IsTotal SceneNode meshLERel :=
  ⟨by
    rintro ⟨t1, l1, s1⟩ ⟨t2, l2, s2⟩
    revert t1 l1 s1 t2 l2 s2
    decide⟩

instance : IsTrans SceneNode meshLERel :=
  ⟨by
    rintro ⟨t1, l1, s1⟩ ⟨t2, l2, s2⟩ ⟨t3, l3, s3⟩
    revert t1 l1 s1 t2 l2 s2 t3 l3 s3
    decide⟩

/-- The sort of the emitted instanced meshes.  `Array.prototype.sort` with
a consistent comparator yields a list pairwise-ordered by `compare ≤ 0`;
the embedding realizes it with insertion sort over `meshLERel`. -/
def sortInstancedMeshes (l : List SceneNode) : List SceneNode :=
  List.insertionSort meshLERel l

/-! ### Render-range filter (main.js) -/

/-- `minRenderHeight` (main.js). -/
def minRenderHeight : Int := -1

/-- `maxRenderHeight` (main.js). -/
def maxRenderHeight : Int := 189

/-- `centerX = Math.floor((117 + 139) / 2)` = 128. -/
def buildCenterX : Int := (117 + 139) / 2

/-- `centerZ = Math.floor((18 + 36) / 2)` = 27. -/
def buildCenterZ : Int := (18 + 36) / 2

/-- The per-block filter of `init`: reject `y` outside
`[minRenderHeight, maxRenderHeight]`, then reject blocks more than 75 from
the center.  The source compares `Math.sqrt(dx*dx + dz*dz) > 75`; on
integer coordinates that is exactly `dx^2 + dz^2 > 75^2` (the squares are
exact in doubles and square root is monotone), which is how the embedding
states it. -/
def blockWithinRenderRange (b : Block) : Bool :=
  if b.y < minRenderHeight ∨ b.y > maxRenderHeight then false
  else if (b.x - buildCenterX) ^ 2 + (b.z - buildCenterZ) ^ 2 > 75 ^ 2 then
    false
  else true

/-- The filtered block list handed to the grouping pass. -/
def filterRenderBlocks (bs : List Block) : List Block :=
  bs.filter blockWithinRenderRange

/-! ### Template fallback and batching failure handling
(blockFactory.js `createBlock` catch branch, materialFactory.js
`createFallbackMaterial`, main.js template loading loop) -/

/-- A material, with the fields the fallback path sets. -/
structure Material where
  color : ℕ := 0xffffff
  wireframe : Bool := false
  transparent : Bool := false
  deriving DecidableEq, Repr

/-- `createFallbackMaterial` (materialFactory.js): opaque magenta
wireframe. -/
def createFallbackMaterial : Material := { color := 0xFF00FF, wireframe := true }

/-- A built template mesh: name, geometry (`none` models a missing/null
geometry) and material list. -/
structure Mesh where
  name : String
  geometry : Option BoxGeom
  materials : List Material
  deriving DecidableEq, Repr

/-- The try/catch boundary of `createBlock` (blockFactory.js): the `build`
argument is the outcome of the whole try block (category dispatch, texture
loads, builder); any thrown error is caught and replaced by the fallback
mesh over the cached block geometry with six fallback materials. -/
def createBlock (blockType : String) (build : Except String Mesh) : Mesh :=
  match build with
  | Except.ok m => m
  | Except.error _ =>
    { name := "fallback_" ++ blockType,
      geometry := some getBlockGeometry,
      materials := List.replicate 6 createFallbackMaterial }

/-- The template-loading loop of `init` (main.js): each group's
`loadBlock` promise either populates the template cache or is caught and
logged, leaving no entry; the emission loop then skips groups without a
template (`if (!templateBlock) continue`) and processes the rest. -/
def batchTemplates (groups : List (String × Except String Mesh)) :
    List (String × Mesh) :=
  groups.filterMap fun g =>
    match g.2 with
    | Except.ok m => some (g.1, m)
    | Except.error _ => none

/-! ## Claim theorems -/

/-- Helper for C3: appending different suffixes to the same string yields
different strings. -/
theorem stringAppendRightNe (t : String) {a b : String} (h : a ≠ b) :
    t ++ a ≠ t ++ b := by
  intro he
  apply h
  apply String.ext
  have hd := congrArg String.data he
  simp only [String.data_append] at hd
  exact List.append_cancel_left hd

/-- C1: a record with type exactly `'slab'` is resolved by `processBlocks`
via the low three bits of `data` through the fixed 8-entry table;
`data: 5` gives `stone_brick_slab`, `data: 0` and a missing `data` give
`stone_slab`. -/
theorem genericSlabResolution :
    (∀ b : Block, b.type = "slab" → blockStep b = [processGenericSlab b]) ∧
    (∀ b : Block, b.type = "slab" →
        (processGenericSlab b).type = slabResolvedType b.data) ∧
    (∀ d : Int, slabResolvedType (some d) = slabTypeTable (d % 8)) ∧
    slabTypeTable 0 = "stone_slab" ∧ slabTypeTable 1 = "sandstone_slab" ∧
    slabTypeTable 2 = "oak_slab" ∧ slabTypeTable 3 = "cobblestone_slab" ∧
    slabTypeTable 4 = "brick_slab" ∧ slabTypeTable 5 = "stone_brick_slab" ∧
    slabTypeTable 6 = "nether_brick_slab" ∧ slabTypeTable 7 = "quartz_slab" ∧
    slabResolvedType (some 5) = "stone_brick_slab" ∧
    slabResolvedType (some 0) = "stone_slab" ∧
    slabResolvedType none = "stone_slab" := by
  refine ⟨?_, ?_, fun d => rfl, by decide, by decide, by decide, by decide,
    by decide, by decide, by decide, by decide, by decide, by decide, rfl⟩
  · intro b h
    have h1 : jsIncludes "slab" "double_plant" = false := by decide
    have h2 : jsIncludes "slab" "_slab" = false := by decide
    simp [blockStep, h, h1, h2]
  · intro b _
    rfl

/-- C1 witness: the theorem applied to a concrete generic slab record with
`data = 5`. -/
theorem genericSlabResolutionWitness :
    ({ type := "slab", x := 0, y := 0, z := 0, data := some 5 } : Block).type
        = "slab" ∧
    blockStep { type := "slab", x := 0, y := 0, z := 0, data := some 5 } =
      [processGenericSlab
        { type := "slab", x := 0, y := 0, z := 0, data := some 5 }] :=
  ⟨rfl, genericSlabResolution.1
    { type := "slab", x := 0, y := 0, z := 0, data := some 5 } rfl⟩

/-- C2 counterexample: with a `stone` record already at `(2,6,2)` appearing
before the double plant at `(2,5,2)`, `processBlocks` emits three records,
two of them at `(2,6,2)` (the marking happens only after the earlier record
was already pushed, so it does not prevent a third record at that
position); a double-plant record that was itself consumed emits no records
at all (two double plants stacked vertically produce two records, not
four); and a pathological plant type whose name contains `torch` dispatches
its parts to the torch builder, not the cross-plane builder. -/
theorem doublePlantThirdRecordCounterexample :
    (processBlocks [{ type := "stone", x := 2, y := 6, z := 2 },
                    { type := "double_plant_fern", x := 2, y := 5, z := 2 }]).length
        = 3 ∧
    ((processBlocks [{ type := "stone", x := 2, y := 6, z := 2 },
                     { type := "double_plant_fern", x := 2, y := 5, z := 2 }]).filter
        (fun b => decide (posOf b = (2, 6, 2)))).length = 2 ∧
    jsIncludes "double_plant_fern" "double_plant" = true ∧
    (processBlocks [{ type := "double_plant_fern", x := 0, y := 0, z := 0 },
                    { type := "double_plant_fern", x := 0, y := 1, z := 0 }]).length
        = 2 ∧
    createBlockDispatch "double_plant_torch_bottom" = RenderDispatch.torch := by
  refine ⟨by decide, by decide, by decide, by decide, by decide⟩

/-- C2 amended: a `double_plant` record always yields exactly its bottom
part (in place) and a synthesized top part one unit above, and marks the
position above as consumed, which suppresses any record at that position
processed later; records at that position appearing earlier in the list
have already been emitted.  The emitted part types dispatch to the
cross-plane double-plant builder for ordinary plant types (verified for
fern and grass). -/
theorem doublePlantSynthesisAmended :
    (∀ b : Block, jsIncludes b.type "double_plant" = true →
        blockStep b = [doublePlantBottom b, doublePlantTop b] ∧
        posOf (doublePlantBottom b) = (b.x, b.y, b.z) ∧
        (doublePlantBottom b).type =
          "double_plant_" ++ doublePlantType b ++ "_bottom" ∧
        posOf (doublePlantTop b) = (b.x, b.y + 1, b.z) ∧
        (doublePlantTop b).type =
          "double_plant_" ++ doublePlantType b ++ "_top" ∧
        blockConsumes b = [(b.x, b.y + 1, b.z)]) ∧
    (∀ (c : Block) (rest : List Block) (consumed : List (Int × Int × Int)),
        posOf c ∈ consumed →
        processBlocksGo (c :: rest) consumed = processBlocksGo rest consumed) ∧
    createBlockDispatch "double_plant_fern_bottom" = RenderDispatch.doublePlant ∧
    createBlockDispatch "double_plant_fern_top" = RenderDispatch.doublePlant ∧
    createBlockDispatch "double_plant_grass_bottom" = RenderDispatch.doublePlant ∧
    createBlockDispatch "double_plant_grass_top" = RenderDispatch.doublePlant := by
  refine ⟨?_, ?_, by decide, by decide, by decide, by decide⟩
  · intro b h
    refine ⟨?_, rfl, rfl, rfl, rfl, ?_⟩
    · simp [blockStep, h]
    · simp [blockConsumes, h, topPosOf]
  · intro c rest consumed hmem
    simp [processBlocksGo, hmem]

/-- C2 witness: the amended theorem applied to the concrete fern record and
to a concrete consumed position. -/
theorem doublePlantSynthesisAmendedWitness :
    jsIncludes
        ({ type := "double_plant_fern", x := 2, y := 5, z := 2 } : Block).type
        "double_plant" = true ∧
    blockStep { type := "double_plant_fern", x := 2, y := 5, z := 2 } =
      [doublePlantBottom { type := "double_plant_fern", x := 2, y := 5, z := 2 },
       doublePlantTop { type := "double_plant_fern", x := 2, y := 5, z := 2 }] ∧
    posOf ({ type := "stone", x := 2, y := 6, z := 2 } : Block) ∈
        [((2 : Int), (6 : Int), (2 : Int))] ∧
    processBlocksGo [{ type := "stone", x := 2, y := 6, z := 2 }]
        [((2 : Int), (6 : Int), (2 : Int))] =
      processBlocksGo [] [((2 : Int), (6 : Int), (2 : Int))] :=
  ⟨by decide,
   (doublePlantSynthesisAmended.1
     { type := "double_plant_fern", x := 2, y := 5, z := 2 } (by decide)).1,
   by decide,
   doublePlantSynthesisAmended.2.1
     { type := "stone", x := 2, y := 6, z := 2 } [] _ (by decide)⟩

/-- C3: upper and lower slabs of one type get distinct group keys
(`..._slab_upper` vs `..._slab_lower`), and the slab geometries are
half-height (0.5) boxes centered at `+0.25` (upper) and `-0.25` (lower),
0.5 apart. -/
theorem slabUpperLowerSeparation :
    (∀ b1 b2 : Block, b1.type = b2.type →
        b1.isUpperSlab = some true → b2.isUpperSlab = some false →
        instanceGroupKey b1 = b1.type ++ "_slab_" ++ "upper" ∧
        instanceGroupKey b2 = b2.type ++ "_slab_" ++ "lower" ∧
        instanceGroupKey b1 ≠ instanceGroupKey b2) ∧
    (getSlabGeometry true).sizeY = 1/2 ∧
    (getSlabGeometry false).sizeY = 1/2 ∧
    (getSlabGeometry true).centerY = 1/4 ∧
    (getSlabGeometry false).centerY = -(1/4) ∧
    (getSlabGeometry true).centerY - (getSlabGeometry false).centerY = 1/2 := by
  refine ⟨?_, rfl, rfl, rfl, rfl, by norm_num [getSlabGeometry]⟩
  intro b1 b2 ht h1 h2
  have k1 : instanceGroupKey b1 = b1.type ++ "_slab_" ++ "upper" := by
    simp [instanceGroupKey, h1]
  have k2 : instanceGroupKey b2 = b2.type ++ "_slab_" ++ "lower" := by
    simp [instanceGroupKey, h2]
  refine ⟨k1, k2, ?_⟩
  rw [k1, k2, ht]
  exact stringAppendRightNe (b2.type ++ "_slab_") (by decide)

/-- C3 witness: the theorem applied to concrete upper/lower `oak_slab`
records. -/
theorem slabUpperLowerSeparationWitness :
    instanceGroupKey
        { type := "oak_slab", x := 0, y := 0, z := 0, isUpperSlab := some true } ≠
      instanceGroupKey
        { type := "oak_slab", x := 1, y := 0, z := 0, isUpperSlab := some false } :=
  (slabUpperLowerSeparation.1
    { type := "oak_slab", x := 0, y := 0, z := 0, isUpperSlab := some true }
    { type := "oak_slab", x := 1, y := 0, z := 0, isUpperSlab := some false }
    rfl rfl rfl).2.2

/-- C4 counterexample: the stair vertex positions are identical for every
facing (nothing is oriented per facing in the geometry), the builder
requests only the `'east'` cache entry even for a north-facing stair, and
facing changes the template yaw and the per-instance rotation matrix — the
facing is applied as a rotation transform, including at instancing time. -/
theorem stairFacingBakingCounterexample :
    getStairGeometryVerts "north" = getStairGeometryVerts "east" ∧
    getStairGeometryVerts "south" = getStairGeometryVerts "east" ∧
    getStairGeometryVerts "west" = getStairGeometryVerts "east" ∧
    (createStairBlock "spruce_stairs" (some "north") none none).geometryKey =
      stairGeometryCacheKey "east" ∧
    (createStairBlock "spruce_stairs" (some "north") none none).rotY ≠
      (createStairBlock "spruce_stairs" (some "east") none none).rotY ∧
    stairInstanceRotation "north" "bottom" ≠
      stairInstanceRotation "east" "bottom" := by
  have hne : (1 : ℚ) ≠ 1/2 := by norm_num
  refine ⟨rfl, rfl, rfl, rfl, fun heq => hne heq, fun heq =>
    hne (congrArg StairInstanceRot.baseYaw heq)⟩

/-- C4 amended: the stair geometry cache is keyed per facing string, but
the vertex data is the same for every facing and the builder only ever
requests the `'east'` entry; facing is applied as rotations instead — a
yaw on the template mesh (north `π`, south `0`, west `3π/2`, east `π/2`)
and at instancing time a per-instance rotation of the same base yaw, a
`π` X-flip for top-half stairs, plus a final `∓π/2` yaw. -/
theorem stairFacingRotationAmended :
    (∀ f g : String, getStairGeometryVerts f = getStairGeometryVerts g) ∧
    (∀ (bt : String) (fo ho so : Option String),
        (createStairBlock bt fo ho so).geometryKey =
          stairGeometryCacheKey "east" ∧
        (createStairBlock bt fo ho so).vertices =
          getStairGeometryVerts "east" ∧
        (createStairBlock bt fo ho so).rotY = stairFacingYaw (jsOr fo "east") ∧
        (createStairBlock bt fo ho so).rotX =
          (if jsOr ho "bottom" = "top" then 1 else 0)) ∧
    (∀ f h : String, stairInstanceRotation f h =
        { baseYaw := stairFacingYaw f, flipTopX := decide (h = "top"),
          extraYaw := if h = "top" then -(1/2) else 1/2 }) ∧
    stairFacingYaw "north" = 1 ∧ stairFacingYaw "south" = 0 ∧
    stairFacingYaw "west" = 3/2 ∧ stairFacingYaw "east" = 1/2 :=
  ⟨fun _ _ => rfl, fun _ _ _ _ => ⟨rfl, rfl, rfl, rfl⟩, fun _ _ => rfl,
   rfl, rfl, rfl, rfl⟩

/-- C5: after the draw-order sort, no opaque node follows a transparent
node; among nodes with equal transparency, no leaf precedes a non-leaf
after it (non-leaves come first); and among equal transparency and leaf
flags, non-slabs come before slabs. -/
theorem drawOrderSortInvariant (l : List SceneNode) :
    (sortInstancedMeshes l).Pairwise (fun a b =>
      ¬(a.isTransparent = true ∧ b.isTransparent = false) ∧
      (a.isTransparent = b.isTransparent →
        ¬(a.isLeaf = true ∧ b.isLeaf = false)) ∧
      (a.isTransparent = b.isTransparent → a.isLeaf = b.isLeaf →
        ¬(a.isSlab = true ∧ b.isSlab = false))) := by
  have h := List.sorted_insertionSort meshLERel l
  refine List.Pairwise.imp ?_ h
  intro a b hab
  rcases a with ⟨t1, l1, s1⟩
  rcases b with ⟨t2, l2, s2⟩
  revert hab
  revert t1 l1 s1 t2 l2 s2
  decide

/-- Helper for C6: the connection key only depends on the multiset of
entries, not their order. -/
theorem connectionsKey_perm {l1 l2 : List (String × JsVal)} (h : l1.Perm l2) :
    connectionsKey l1 = connectionsKey l2 := by
  unfold connectionsKey
  congr 1
  refine List.eq_of_perm_of_sorted ?_ (List.sorted_insertionSort _ _)
    (List.sorted_insertionSort _ _)
  exact ((List.perm_insertionSort _ _).trans
    ((h.filter _).map _)).trans (List.perm_insertionSort _ _).symm

/-- C6: two records whose connections maps hold the same entries in
different orders get the same grouping key and the same wall/fence
template cache key (the connected directions are sorted before being
joined). -/
theorem wallFenceConnectionKeyOrderInvariant :
    ∀ (b : Block) (c1 c2 : List (String × JsVal)),
      b.connections = some c1 → c1.Perm c2 →
      instanceGroupKey b = instanceGroupKey { b with connections := some c2 } ∧
      wallFenceCacheKey b.type c1 = wallFenceCacheKey b.type c2 := by
  intro b c1 c2 hb hperm
  have hck := connectionsKey_perm hperm
  constructor
  · rcases b with ⟨type, x, y, z, dat, iu, eiu, sdf, sdh, sds, fa, ha, sh,
      td, col, conns, hang, idb, idt, od, ot⟩
    subst hb
    simp only [instanceGroupKey, connectionsSuffix, hck]
  · unfold wallFenceCacheKey
    rw [hck]

/-- C6 witness: the theorem applied to a concrete wall record whose
connections list `north, east` is permuted to `east, north`. -/
theorem wallFenceConnectionKeyOrderInvariantWitness :
    instanceGroupKey
        { type := "cobblestone_wall", x := 0, y := 0, z := 0,
          connections := some [("north", JsVal.str "true"),
                               ("east", JsVal.str "true")] } =
      instanceGroupKey
        { type := "cobblestone_wall", x := 0, y := 0, z := 0,
          connections := some [("east", JsVal.str "true"),
                               ("north", JsVal.str "true")] } :=
  (wallFenceConnectionKeyOrderInvariant
    { type := "cobblestone_wall", x := 0, y := 0, z := 0,
      connections := some [("north", JsVal.str "true"),
                           ("east", JsVal.str "true")] }
    [("north", JsVal.str "true"), ("east", JsVal.str "true")]
    [("east", JsVal.str "true"), ("north", JsVal.str "true")]
    rfl (List.Perm.swap _ _ _)).1

/-- C7: a failed template build is caught at the `createBlock` boundary and
replaced by a mesh over the cached block geometry with six magenta
wireframe fallback materials; in the batching loop a failed group is
dropped while every other group is still processed. -/
theorem templateFailureFallbackAndSkip :
    (∀ blockType e : String,
        createBlock blockType (Except.error e) =
          { name := "fallback_" ++ blockType,
            geometry := some getBlockGeometry,
            materials := List.replicate 6 createFallbackMaterial } ∧
        (createBlock blockType (Except.error e)).geometry ≠ none ∧
        createFallbackMaterial.color = 0xFF00FF ∧
        createFallbackMaterial.wireframe = true) ∧
    (∀ (pre post : List (String × Except String Mesh)) (k e : String),
        batchTemplates (pre ++ (k, Except.error e) :: post) =
          batchTemplates pre ++ batchTemplates post) ∧
    (∀ (gs : List (String × Except String Mesh)) (k : String) (m : Mesh),
        batchTemplates ((k, Except.ok m) :: gs) = (k, m) :: batchTemplates gs) := by
  refine ⟨fun blockType e => ⟨rfl, by simp [createBlock], rfl, rfl⟩, ?_, ?_⟩
  · intro pre post k e
    simp [batchTemplates, List.filterMap_append, List.filterMap_cons]
  · intro gs k m
    simp [batchTemplates]

/-- C8: wall and fence arms are built only for directions whose connection
value is strictly (`===`) the string `'true'`; a connections map holding
only the boolean `true` yields just the central post with no arms and an
empty connection key (`'none'` in the grouping key), while a string
`'true'` value does build the arms. -/
theorem wallFenceStrictStringConnections :
    ∀ conns : List (String × JsVal),
      (∀ p ∈ conns, p.2 = JsVal.bool true) →
      createWallBlock conns = [wallPost] ∧
      createFenceBlock conns = [fencePost] ∧
      connectionsKey conns = "" ∧
      connectionsSuffix (some conns) = "_connections_" ++ "none" ∧
      createWallBlock [("north", JsVal.str "true")] =
        [wallPost, wallArm ("north", 0, -(3/8))] ∧
      createFenceBlock [("north", JsVal.str "true")] =
        [fencePost, fenceUpperRail ("north", 0, -(3/8)),
         fenceLowerRail ("north", 0, -(3/8))] := by
  intro conns hall
  have hget : ∀ k, ¬jsGet conns k = some (JsVal.str "true") := by
    intro k hk
    unfold jsGet at hk
    cases hfind : conns.find? (fun p => decide (p.1 = k)) with
    | none => rw [hfind] at hk; simp at hk
    | some p =>
      rw [hfind] at hk
      simp at hk
      have hp := List.mem_of_find?_eq_some hfind
      have := hall p hp
      rw [this] at hk
      exact JsVal.noConfusion hk
  have hfilter :
      wallDirections.filter
        (fun d => decide (jsGet conns d.1 = some (JsVal.str "true"))) = [] := by
    rw [List.filter_eq_nil_iff]
    intro d _
    simpa using hget d.1
  have htrue : connectionsTrueDirs conns = [] := by
    unfold connectionsTrueDirs
    rw [List.filter_eq_nil_iff.mpr ?_, List.map_nil]
    intro p hp
    simp [hall p hp]
  have hkey : connectionsKey conns = "" := by
    unfold connectionsKey
    rw [htrue]
    rfl
  refine ⟨?_, ?_, hkey, ?_, rfl, rfl⟩
  · unfold createWallBlock
    rw [hfilter]
    rfl
  · unfold createFenceBlock
    rw [hfilter]
    rfl
  · simp [connectionsSuffix, hkey]

/-- C8 witness: the theorem applied to a concrete connections map holding
boolean `true` for north and east. -/
theorem wallFenceStrictStringConnectionsWitness :
    createWallBlock [("north", JsVal.bool true), ("east", JsVal.bool true)] =
        [wallPost] ∧
    createFenceBlock [("north", JsVal.bool true), ("east", JsVal.bool true)] =
        [fencePost] :=
  ⟨(wallFenceStrictStringConnections
      [("north", JsVal.bool true), ("east", JsVal.bool true)]
      (by decide)).1,
   (wallFenceStrictStringConnections
      [("north", JsVal.bool true), ("east", JsVal.bool true)]
      (by decide)).2.1⟩

/-- C9: a block with `y` outside `[-1, 189]` or squared horizontal distance
from `(128, 27)` beyond `75^2` fails the render filter, is absent from the
filtered list, and adding it to the input changes nothing downstream. -/
theorem renderRangeFilterExcludes :
    ∀ (b : Block) (bs : List Block),
      (b.y < -1 ∨ b.y > 189 ∨ (b.x - 128) ^ 2 + (b.z - 27) ^ 2 > 5625) →
      blockWithinRenderRange b = false ∧
      b ∉ filterRenderBlocks bs ∧
      filterRenderBlocks (bs ++ [b]) = filterRenderBlocks bs := by
  intro b bs h
  have hcx : buildCenterX = 128 := by decide
  have hcz : buildCenterZ = 27 := by decide
  have hb : blockWithinRenderRange b = false := by
    unfold blockWithinRenderRange minRenderHeight maxRenderHeight
    rw [hcx, hcz]
    rcases h with h | h | h
    · rw [if_pos (Or.inl h)]
    · rw [if_pos (Or.inr h)]
    · by_cases hy : b.y < -1 ∨ b.y > 189
      · rw [if_pos hy]
      · rw [if_neg hy, if_pos (by norm_num at h ⊢; exact h)]
  refine ⟨hb, ?_, ?_⟩
  · intro hmem
    have := (List.mem_filter.mp hmem).2
    rw [hb] at this
    exact Bool.noConfusion this
  · unfold filterRenderBlocks
    rw [List.filter_append]
    simp [hb]

/-- C9 witness: the theorem applied to a concrete out-of-range block. -/
theorem renderRangeFilterExcludesWitness :
    (((200 : Int) < -1 ∨ (200 : Int) > 189 ∨
        ((128 : Int) - 128) ^ 2 + ((27 : Int) - 27) ^ 2 > 5625) ∧
      blockWithinRenderRange { type := "stone", x := 128, y := 200, z := 27 }
        = false) ∧
    ({ type := "stone", x := 128, y := 200, z := 27 } : Block) ∉
      filterRenderBlocks [{ type := "stone", x := 128, y := 200, z := 27 }] :=
  ⟨⟨Or.inr (Or.inl (by norm_num)),
    (renderRangeFilterExcludes
      { type := "stone", x := 128, y := 200, z := 27 } []
      (Or.inr (Or.inl (by norm_num)))).1⟩,
   (renderRangeFilterExcludes
      { type := "stone", x := 128, y := 200, z := 27 }
      [{ type := "stone", x := 128, y := 200, z := 27 }]
      (Or.inr (Or.inl (by norm_num)))).2.1⟩

/-- C10: plant and double-plant template construction is nondeterministic —
two builds of the same record from different `Math.random()` draws differ
in the group yaw while every other field agrees — except for crop/wheat
plants and `_top` double-plant parts, which are deterministic. -/
theorem plantTemplateNondeterminism :
    (∀ bt : String,
        jsIncludes bt "crop" = false → jsIncludes bt "wheat" = false →
        createPlantBlock bt 0 ≠ createPlantBlock bt (1/2) ∧
        (createPlantBlock bt 0).name = (createPlantBlock bt (1/2)).name ∧
        (createPlantBlock bt 0).plane1RotY =
          (createPlantBlock bt (1/2)).plane1RotY ∧
        (createPlantBlock bt 0).plane2RotY =
          (createPlantBlock bt (1/2)).plane2RotY ∧
        (createPlantBlock bt 0).groupPosY =
          (createPlantBlock bt (1/2)).groupPosY) ∧
    (∀ bt : String, jsIncludes bt "_top" = false →
        createDoublePlantBlock bt 0 ≠ createDoublePlantBlock bt (1/2) ∧
        (createDoublePlantBlock bt 0).name =
          (createDoublePlantBlock bt (1/2)).name ∧
        (createDoublePlantBlock bt 0).plane1RotY =
          (createDoublePlantBlock bt (1/2)).plane1RotY ∧
        (createDoublePlantBlock bt 0).plane2RotY =
          (createDoublePlantBlock bt (1/2)).plane2RotY ∧
        (createDoublePlantBlock bt 0).groupPosY =
          (createDoublePlantBlock bt (1/2)).groupPosY) ∧
    (∀ (bt : String) (r1 r2 : ℚ),
        jsIncludes bt "crop" = true ∨ jsIncludes bt "wheat" = true →
        createPlantBlock bt r1 = createPlantBlock bt r2) ∧
    (∀ (bt : String) (r1 r2 : ℚ), jsIncludes bt "_top" = true →
        createDoublePlantBlock bt r1 = createDoublePlantBlock bt r2) := by
  refine ⟨?_, ?_, ?_, ?_⟩
  · intro bt h1 h2
    refine ⟨?_, rfl, rfl, rfl, rfl⟩
    intro heq
    have hrot := congrArg PlantTemplate.groupRotY heq
    simp only [createPlantBlock, h1, h2, Bool.not_false, Bool.and_self,
      if_true] at hrot
    norm_num at hrot
  · intro bt h1
    refine ⟨?_, rfl, rfl, rfl, rfl⟩
    intro heq
    have hrot := congrArg PlantTemplate.groupRotY heq
    simp only [createDoublePlantBlock, h1, Bool.not_false, if_true] at hrot
    norm_num at hrot
  · intro bt r1 r2 h
    rcases h with h | h <;> simp [createPlantBlock, h]
  · intro bt r1 r2 h
    simp [createDoublePlantBlock, h]

/-- C10 witness: the theorem applied to the concrete types `fern` (random
yaw), `double_plant_fern_bottom` (random yaw) and `wheat` /
`double_plant_fern_top` (deterministic). -/
theorem plantTemplateNondeterminismWitness :
    (jsIncludes "fern" "crop" = false ∧ jsIncludes "fern" "wheat" = false ∧
      createPlantBlock "fern" 0 ≠ createPlantBlock "fern" (1/2)) ∧
    (jsIncludes "double_plant_fern_bottom" "_top" = false ∧
      createDoublePlantBlock "double_plant_fern_bottom" 0 ≠
        createDoublePlantBlock "double_plant_fern_bottom" (1/2)) ∧
    createPlantBlock "wheat" (1/3) = createPlantBlock "wheat" (2/3) ∧
    createDoublePlantBlock "double_plant_fern_top" (1/3) =
      createDoublePlantBlock "double_plant_fern_top" (2/3) :=
  ⟨⟨by decide, by decide,
    (plantTemplateNondeterminism.1 "fern" (by decide) (by decide)).1⟩,
   ⟨by decide,
    (plantTemplateNondeterminism.2.1 "double_plant_fern_bottom" (by decide)).1⟩,
   plantTemplateNondeterminism.2.2.1 "wheat" (1/3) (2/3)
     (Or.inr (by decide)),
   plantTemplateNondeterminism.2.2.2 "double_plant_fern_top" (1/3) (2/3)
     (by decide)⟩
